import Mathlib

/-!
Verification of the `w25` serial NOR flash driver (src/src/lib.rs) against
its natural-language specification.  Pure Rust functions are embedded as
Lean functions on `Nat` (bytes are `Nat` values below 256, addresses are
`Nat` values below 2^32); fallible peripheral handles (the SPI bus and the
two output pins) are embedded as response functions returning `Except`,
and every driver operation additionally returns the ordered list of
side-effect events (pin drives and bus transactions) it performed, so that
claims about what was or was not issued on the bus are statements about
that trace.
-/

namespace W25Spec

/-- Side effects a driver operation can perform: driving the hold line,
driving the write-protect line, a write-only bus transaction, or a
full-duplex bus transfer.  Each event records the bytes (or pin state)
that the driver sent. -/
inductive Event where
  | setHold (high : Bool)
  | setWp (high : Bool)
  | busWrite (tx : List Nat)
  | busTransfer (tx : List Nat)
  deriving DecidableEq, Repr

/-- Whether an event is a bus transaction (as opposed to a pin drive). -/
def Event.isBus : Event → Bool
  | .busWrite _ => true
  | .busTransfer _ => true
  | _ => false

/-- The SPI bus collaborator: a write-only primitive and a full-duplex
transfer primitive, each of which may fail with a transport error `S`.
Embeds the `embedded_hal::spi` contract the driver relies on. -/
structure Bus (S : Type) where
  write : List Nat → Except S Unit
  transfer : List Nat → Except S (List Nat)

/-- Rust `enum Command` from src/src/lib.rs lines 42-57. -/
inductive Command where
  | PageProgram
  | ReadData
  | ReadStatusRegister1
  | WriteEnable
  | SectorErase
  | UniqueId
  | Block32Erase
  | Block64Erase
  | ChipErase
  | EnableReset
  | PowerDown
  | ReleasePowerDown
  | JedecId
  | Reset
  deriving DecidableEq, Repr

/-- The `#[repr(u8)]` discriminant of each `Command` variant
(the opcode byte placed on the bus). -/
def Command.opcode : Command → Nat
  | .PageProgram => 0x02
  | .ReadData => 0x03
  | .ReadStatusRegister1 => 0x05
  | .WriteEnable => 0x06
  | .SectorErase => 0x20
  | .UniqueId => 0x4B
  | .Block32Erase => 0x52
  | .Block64Erase => 0xD8
  | .ChipErase => 0xC7
  | .EnableReset => 0x66
  | .PowerDown => 0xB9
  | .ReleasePowerDown => 0xAB
  | .JedecId => 0x9F
  | .Reset => 0x99

/-- `fn command_and_address(command: u8, address: u32) -> [u8; 4]`
(src/src/lib.rs lines 176-184), embedded byte-for-byte: the opcode
followed by the three low address bytes, most significant first, each
extracted with the same mask-and-shift the Rust code uses. -/
def command_and_address (command : Nat) (address : Nat) : List Nat :=
  [ command,
    (address &&& 0xFF0000) >>> 16,
    (address &&& 0x00FF00) >>> 8,
    (address &&& 0x0000FF) >>> 0 ]

/-- The chip series marker types `Q` and `X` of src/src/lib.rs. -/
inductive Series where
  | Q
  | X
  deriving DecidableEq, Repr

/-- `NorSeries::PAGE_SIZE` associated constant (256 for both series). -/
def Series.PAGE_SIZE : Series → Nat
  | .Q => 256
  | .X => 256

/-- `NorSeries::SECTOR_SIZE` associated constant
(`Self::PAGE_SIZE * 16` for both series). -/
def Series.SECTOR_SIZE : Series → Nat
  | .Q => Series.PAGE_SIZE .Q * 16
  | .X => Series.PAGE_SIZE .X * 16

/-- The `Reset` capability marker trait of src/src/lib.rs lines 36-38:
implemented for series `Q` only, not for `X`.  An operation gated on the
trait takes a proof of `supportsReset s = true`, mirroring the Rust
compile-time trait bound. -/
def Series.supportsReset : Series → Bool
  | .Q => true
  | .X => false

/-- The driver error enum `Error<S, P>` of src/src/lib.rs lines 152-163. -/
inductive Error (S P : Type) where
  | SpiError (e : S)
  | PinError (e : P)
  | NotAligned
  | OutOfBounds
  | WriteEnableFail

/-- The generic NOR-flash error kinds of `embedded_storage` relevant to
the driver's `NorFlashError` impl. -/
inductive NorFlashErrorKind where
  | NotAligned
  | OutOfBounds
  | Other
  deriving DecidableEq, Repr

/-- `impl NorFlashError for Error` (src/src/lib.rs lines 165-173):
`NotAligned` and `OutOfBounds` map to their own kinds, every other
variant falls into the wildcard arm mapping to `Other`. -/
def Error.kind : Error S P → NorFlashErrorKind
  | .NotAligned => .NotAligned
  | .OutOfBounds => .OutOfBounds
  | _ => .Other

/-- The driver state `W25` (src/src/lib.rs lines 60-66).  The peripheral
handles are embedded as behaviour functions passed to each operation, so
the state proper is the caller-supplied capacity. -/
structure W25 where
  capacity : Nat

/-- `fn n_sectors` (src/src/lib.rs lines 74-76). -/
def W25.n_sectors (w : W25) (s : Series) : Nat :=
  w.capacity / s.SECTOR_SIZE

/-- `fn n_blocks_32k` (src/src/lib.rs lines 78-80). -/
def W25.n_blocks_32k (w : W25) : Nat :=
  w.capacity / 32768

/-- `fn n_blocks_64k` (src/src/lib.rs lines 82-84). -/
def W25.n_blocks_64k (w : W25) : Nat :=
  w.capacity / 65536

/-- `W25::new` (src/src/lib.rs lines 99-112): builds the state, drives
the hold line high, then the write-protect line high, short-circuiting
each failure into `Error::PinError`.  A pin handle is embedded as a
function from the requested state (`true` = high) to the drive result. -/
def W25.new (hold wp : Bool → Except P Unit) (capacity : Nat) :
    Except (Error S P) W25 × List Event :=
  match hold true with
  | .error e => (.error (.PinError e), [.setHold true])
  | .ok _ =>
    match wp true with
    | .error e => (.error (.PinError e), [.setHold true, .setWp true])
    | .ok _ => (.ok ⟨capacity⟩, [.setHold true, .setWp true])

/-- Modelled from the spec: the write-enable-latch bit position in status
register 1, checked by the write-enable handshake of the `commands_impl`
module (that module is absent from src/).  Bit 1 on W25 parts. -/
def welBit : Nat := 1

/-- Modelled from the spec: the write-enable handshake of the absent
`commands_impl` module — issues opcode 0x06, then reads status register 1
and checks the write-enable-latch bit; if the bit is not set after issuing
the command, returns write-enable-failed.  The status-register read is one
full-duplex transfer of the opcode followed by a dummy byte; the status
byte is the byte clocked back in place of the dummy. -/
def writeEnable (bus : Bus S) : Except (Error S P) Unit × List Event :=
  match bus.write [Command.WriteEnable.opcode] with
  | .error e => (.error (.SpiError e), [.busWrite [Command.WriteEnable.opcode]])
  | .ok _ =>
    match bus.transfer [Command.ReadStatusRegister1.opcode, 0] with
    | .error e =>
        (.error (.SpiError e),
         [.busWrite [Command.WriteEnable.opcode],
          .busTransfer [Command.ReadStatusRegister1.opcode, 0]])
    | .ok rx =>
        if (rx.getD 1 0).testBit welBit then
          (.ok (), [.busWrite [Command.WriteEnable.opcode],
                    .busTransfer [Command.ReadStatusRegister1.opcode, 0]])
        else
          (.error .WriteEnableFail,
           [.busWrite [Command.WriteEnable.opcode],
            .busTransfer [Command.ReadStatusRegister1.opcode, 0]])

/-- Modelled from the spec: the Read operation of the absent
`commands_impl` module — the address is validated to lie within
`[0, capacity)` and `address + length <= capacity`, else out-of-bounds,
before any bus traffic; on success it issues the ReadData frame and clocks
`length` further bytes in a single full-duplex transfer. -/
def W25.read (w : W25) (bus : Bus S) (address length : Nat) :
    Except (Error S P) (List Nat) × List Event :=
  if w.capacity ≤ address ∨ w.capacity < address + length then
    (.error .OutOfBounds, [])
  else
    let tx := command_and_address Command.ReadData.opcode address ++
      List.replicate length 0
    match bus.transfer tx with
    | .error e => (.error (.SpiError e), [.busTransfer tx])
    | .ok rx => (.ok (rx.drop 4), [.busTransfer tx])

/-- Modelled from the spec: the Page Program operation of the absent
`commands_impl` module — the address must be page-aligned else not-aligned
and the data must fit in the page else out-of-bounds, both checked before
any bus traffic; then the write-enable handshake runs, and only on its
success is the 4-byte frame followed by the data sent in one exchange. -/
def W25.pageProgram (w : W25) (s : Series) (bus : Bus S) (address : Nat)
    (data : List Nat) : Except (Error S P) Unit × List Event :=
  if address % s.PAGE_SIZE ≠ 0 then (.error .NotAligned, [])
  else if s.PAGE_SIZE < data.length then (.error .OutOfBounds, [])
  else
    match writeEnable bus with
    | (.error e, tr) => (.error e, tr)
    | (.ok _, tr) =>
      let tx := command_and_address Command.PageProgram.opcode address ++ data
      match bus.write tx with
      | .error e => (.error (.SpiError e), tr ++ [.busWrite tx])
      | .ok _ => (.ok (), tr ++ [.busWrite tx])

/-- Modelled from the spec: the Sector Erase operation of the absent
`commands_impl` module — the address must be sector-aligned else
not-aligned and in bounds else out-of-bounds, both checked before any bus
traffic; then the write-enable handshake runs, and only on its success is
the SectorErase frame issued. -/
def W25.sectorErase (w : W25) (s : Series) (bus : Bus S) (address : Nat) :
    Except (Error S P) Unit × List Event :=
  if address % s.SECTOR_SIZE ≠ 0 then (.error .NotAligned, [])
  else if w.capacity ≤ address then (.error .OutOfBounds, [])
  else
    match writeEnable bus with
    | (.error e, tr) => (.error e, tr)
    | (.ok _, tr) =>
      let tx := command_and_address Command.SectorErase.opcode address
      match bus.write tx with
      | .error e => (.error (.SpiError e), tr ++ [.busWrite tx])
      | .ok _ => (.ok (), tr ++ [.busWrite tx])

/-- Modelled from the spec: the software-reset operation of the absent
`commands_impl` module — a two-step sequence, the enable-reset opcode then
the reset opcode, each a separate bus transaction.  The operation demands
a proof that the series carries the `Reset` capability marker, mirroring
the Rust trait bound that rejects a call on series `X` at compile time. -/
def W25.reset (s : Series) (h : s.supportsReset = true) (bus : Bus S) :
    Except (Error S P) Unit × List Event :=
  match bus.write [Command.EnableReset.opcode] with
  | .error e => (.error (.SpiError e), [.busWrite [Command.EnableReset.opcode]])
  | .ok _ =>
    match bus.write [Command.Reset.opcode] with
    | .error e =>
        (.error (.SpiError e),
         [.busWrite [Command.EnableReset.opcode],
          .busWrite [Command.Reset.opcode]])
    | .ok _ =>
        (.ok (), [.busWrite [Command.EnableReset.opcode],
                  .busWrite [Command.Reset.opcode]])

/-- A bus whose write always succeeds and whose transfer clocks back all
zeros; used to instantiate universally quantified theorems at a concrete
input. -/
def zeroBus : Bus Unit where
  write := fun _ => .ok ()
  transfer := fun tx => .ok (List.replicate tx.length 0)

/-- A pin handle whose drive always succeeds. -/
def okPin : Bool → Except Unit Unit := fun _ => .ok ()

/-- A pin handle whose drive always fails. -/
def badPin : Bool → Except Unit Unit := fun _ => .error ()

theorem land_shift16 (a : Nat) : (a &&& 0xFF0000) >>> 16 = a / 2 ^ 16 % 2 ^ 8 := by
  have h1 : (0xFF0000 : Nat) = (2 ^ 8 - 1) <<< 16 := by decide
  have h2 : a / 2 ^ 16 = a >>> 16 := (Nat.shiftRight_eq_div_pow a 16).symm
  rw [h1, h2]
  apply Nat.eq_of_testBit_eq
  intro i
  rw [Nat.testBit_shiftRight, Nat.testBit_and, Nat.testBit_shiftLeft,
    Nat.testBit_mod_two_pow, Nat.testBit_shiftRight, Nat.testBit_two_pow_sub_one]
  rcases Nat.lt_or_ge i 8 with h | h
  · simp [h, Nat.add_sub_cancel_left]
  · simp [Nat.add_sub_cancel_left, show ¬ (i < 8) from by omega]

theorem land_shift8 (a : Nat) : (a &&& 0x00FF00) >>> 8 = a / 2 ^ 8 % 2 ^ 8 := by
  have h1 : (0x00FF00 : Nat) = (2 ^ 8 - 1) <<< 8 := by decide
  have h2 : a / 2 ^ 8 = a >>> 8 := (Nat.shiftRight_eq_div_pow a 8).symm
  rw [h1, h2]
  apply Nat.eq_of_testBit_eq
  intro i
  rw [Nat.testBit_shiftRight, Nat.testBit_and, Nat.testBit_shiftLeft,
    Nat.testBit_mod_two_pow, Nat.testBit_shiftRight, Nat.testBit_two_pow_sub_one]
  rcases Nat.lt_or_ge i 8 with h | h
  · simp [h, Nat.add_sub_cancel_left]
  · simp [Nat.add_sub_cancel_left, show ¬ (i < 8) from by omega]

theorem land_shift0 (a : Nat) : (a &&& 0x0000FF) >>> 0 = a % 2 ^ 8 := by
  have h1 : (0x0000FF : Nat) = 2 ^ 8 - 1 := by decide
  rw [Nat.shiftRight_zero, h1, Nat.and_pow_two_sub_one_eq_mod]

theorem command_and_address_bytes (c x : Nat) :
    command_and_address c x =
      [c, x / 2 ^ 16 % 2 ^ 8, x / 2 ^ 8 % 2 ^ 8, x % 2 ^ 8] := by
  simp only [command_and_address, land_shift16, land_shift8, land_shift0]

/-- C1: for every command byte `c` and every 32-bit address `a`, the
encoder returns the 4-byte frame `[c, bits 23-16 of a, bits 15-8 of a,
bits 7-0 of a]` (big-endian); in particular
`encode(ReadData, 0x001234) = [0x03, 0x00, 0x12, 0x34]` and
`encode(SectorErase, 0x00F000) = [0x20, 0x00, 0xF0, 0x00]`; and address
bits above bit 23 are discarded by masking, never rejected. -/
theorem command_and_address_correct (c a : Nat) :
    command_and_address c a =
      [c, a / 2 ^ 16 % 2 ^ 8, a / 2 ^ 8 % 2 ^ 8, a % 2 ^ 8] ∧
    command_and_address Command.ReadData.opcode 0x001234 =
      [0x03, 0x00, 0x12, 0x34] ∧
    command_and_address Command.SectorErase.opcode 0x00F000 =
      [0x20, 0x00, 0xF0, 0x00] ∧
    command_and_address c (a % 2 ^ 24) = command_and_address c a := by
  refine ⟨command_and_address_bytes c a, by decide, by decide, ?_⟩
  rw [command_and_address_bytes c a, command_and_address_bytes c (a % 2 ^ 24)]
  have e1 : a % 2 ^ 24 / 2 ^ 16 % 2 ^ 8 = a / 2 ^ 16 % 2 ^ 8 := by omega
  have e2 : a % 2 ^ 24 / 2 ^ 8 % 2 ^ 8 = a / 2 ^ 8 % 2 ^ 8 := by omega
  have e3 : a % 2 ^ 24 % 2 ^ 8 = a % 2 ^ 8 := by omega
  rw [e1, e2, e3]

/-- C2: the numeric value of every opcode in the `Command` enumeration
matches the spec's opcode table bit-exactly. -/
theorem command_opcode_table :
    Command.opcode .PageProgram = 0x02 ∧
    Command.opcode .ReadData = 0x03 ∧
    Command.opcode .ReadStatusRegister1 = 0x05 ∧
    Command.opcode .WriteEnable = 0x06 ∧
    Command.opcode .SectorErase = 0x20 ∧
    Command.opcode .UniqueId = 0x4B ∧
    Command.opcode .Block32Erase = 0x52 ∧
    Command.opcode .Block64Erase = 0xD8 ∧
    Command.opcode .ChipErase = 0xC7 ∧
    Command.opcode .EnableReset = 0x66 ∧
    Command.opcode .PowerDown = 0xB9 ∧
    Command.opcode .ReleasePowerDown = 0xAB ∧
    Command.opcode .JedecId = 0x9F ∧
    Command.opcode .Reset = 0x99 := by
  decide

/-- C8: for both modeled chip series the page size is 256 bytes and the
sector size is 4096 bytes, and the derived counts equal capacity divided
by the unit size; for capacity = 16 MiB that gives 4096 sectors, 512
32-KiB blocks and 256 64-KiB blocks. -/
theorem series_sizes_and_counts (cap : Nat) :
    Series.PAGE_SIZE .Q = 256 ∧
    Series.PAGE_SIZE .X = 256 ∧
    Series.SECTOR_SIZE .Q = 4096 ∧
    Series.SECTOR_SIZE .X = 4096 ∧
    (∀ s : Series, (W25.mk cap).n_sectors s = cap / 4096) ∧
    (W25.mk cap).n_blocks_32k = cap / 32768 ∧
    (W25.mk cap).n_blocks_64k = cap / 65536 ∧
    (∀ s : Series, (W25.mk 16777216).n_sectors s = 4096) ∧
    (W25.mk 16777216).n_blocks_32k = 512 ∧
    (W25.mk 16777216).n_blocks_64k = 256 := by
  refine ⟨rfl, rfl, rfl, rfl, ?_, rfl, rfl, ?_, by decide, by decide⟩
  · intro s
    cases s <;> rfl
  · intro s
    cases s <;> decide

/-- C9: the `NorFlashError` conversion maps `NotAligned` to the
`NotAligned` kind, `OutOfBounds` to the `OutOfBounds` kind, and every
other variant (`SpiError`, `PinError`, `WriteEnableFail`) to the `Other`
kind, so through the generic interface bus, pin and write-enable failures
are indistinguishable from each other. -/
theorem error_kind_mapping (S P : Type) (s : S) (p : P) :
    (Error.NotAligned : Error S P).kind = .NotAligned ∧
    (Error.OutOfBounds : Error S P).kind = .OutOfBounds ∧
    (Error.SpiError s : Error S P).kind = .Other ∧
    (Error.PinError p : Error S P).kind = .Other ∧
    (Error.WriteEnableFail : Error S P).kind = .Other ∧
    (Error.SpiError s : Error S P).kind = (Error.PinError p : Error S P).kind ∧
    (Error.PinError p : Error S P).kind =
      (Error.WriteEnableFail : Error S P).kind :=
  ⟨rfl, rfl, rfl, rfl, rfl, rfl, rfl⟩

/-- C6: the constructor drives both control lines high exactly once each
before returning success; if driving either line fails it returns the
pin-error wrapping that line's error instead of a controller; and in all
cases no bus transaction is performed during construction. -/
theorem new_drives_lines_high (P S : Type) (hold wp : Bool → Except P Unit)
    (cap : Nat) :
    ((W25.new (S := S) hold wp cap).2.all fun ev => !ev.isBus) = true ∧
    (∀ u v, hold true = .ok u → wp true = .ok v →
      (W25.new (S := S) hold wp cap).1 = .ok ⟨cap⟩ ∧
      (W25.new (S := S) hold wp cap).2 = [.setHold true, .setWp true]) ∧
    (∀ e, hold true = .error e →
      (W25.new (S := S) hold wp cap).1 = .error (.PinError e)) ∧
    (∀ u e, hold true = .ok u → wp true = .error e →
      (W25.new (S := S) hold wp cap).1 = .error (.PinError e)) := by
  unfold W25.new
  rcases h1 : hold true with e | u <;> rcases h2 : wp true with f | v <;>
    simp [h1, h2, Event.isBus]

/-- Witness for C6: at a concrete capacity with always-succeeding pins,
construction succeeds and the trace is exactly one hold drive followed by
one write-protect drive, both high. -/
theorem new_drives_lines_high_witness :
    (W25.new (S := Unit) okPin okPin 7).1 = .ok ⟨7⟩ ∧
    (W25.new (S := Unit) okPin okPin 7).2 = [.setHold true, .setWp true] :=
  (new_drives_lines_high Unit Unit okPin okPin 7).2.1 () () rfl rfl

/-- C10: the constructor drives the lines in a fixed order — hold first,
then write-protect — and short-circuits on failure: whenever driving the
hold line fails, it returns the pin-error and the write-protect line is
never driven at all. -/
theorem new_hold_first_short_circuit (P S : Type)
    (hold wp : Bool → Except P Unit) (cap : Nat) :
    ((W25.new (S := S) hold wp cap).2 = [.setHold true] ∨
     (W25.new (S := S) hold wp cap).2 = [.setHold true, .setWp true]) ∧
    (∀ e, hold true = .error e →
      (W25.new (S := S) hold wp cap).1 = .error (.PinError e) ∧
      (W25.new (S := S) hold wp cap).2 = [.setHold true]) := by
  unfold W25.new
  rcases h1 : hold true with e | u <;> rcases h2 : wp true with f | v <;>
    simp [h1, h2]

/-- Witness for C10: with a hold pin that always fails, construction at a
concrete capacity returns the pin-error and the trace shows the hold
drive only — the write-protect line was never touched. -/
theorem new_hold_first_short_circuit_witness :
    (W25.new (S := Unit) badPin okPin 7).1 = .error (.PinError ()) ∧
    (W25.new (S := Unit) badPin okPin 7).2 = [.setHold true] :=
  (new_hold_first_short_circuit Unit Unit badPin okPin 7).2 () rfl

/-- C3: for every address and length whose sum exceeds the capacity, the
Read operation returns the out-of-bounds error and issues zero bus
transactions. -/
theorem read_out_of_bounds (S P : Type) (w : W25) (bus : Bus S) (a l : Nat)
    (h : w.capacity < a + l) :
    (W25.read (P := P) w bus a l).1 = .error .OutOfBounds ∧
    (W25.read (P := P) w bus a l).2 = [] := by
  unfold W25.read
  rw [if_pos (Or.inr h)]
  exact ⟨rfl, rfl⟩

/-- Witness for C3: reading 8 bytes at address 12 from a 16-byte chip
returns out-of-bounds with an empty bus trace. -/
theorem read_out_of_bounds_witness :
    (W25.read (P := Unit) ⟨16⟩ zeroBus 12 8).1 = .error .OutOfBounds ∧
    (W25.read (P := Unit) ⟨16⟩ zeroBus 12 8).2 = [] :=
  read_out_of_bounds Unit Unit ⟨16⟩ zeroBus 12 8 (by decide)

/-- C4: for every address that is not a multiple of the page size, the
Page Program operation returns the not-aligned error with an empty bus
trace — so neither a write-enable transaction nor a program transaction
is issued. -/
theorem page_program_not_aligned (S P : Type) (w : W25) (s : Series)
    (bus : Bus S) (a : Nat) (data : List Nat) (h : a % s.PAGE_SIZE ≠ 0) :
    (W25.pageProgram (P := P) w s bus a data).1 = .error .NotAligned ∧
    (W25.pageProgram (P := P) w s bus a data).2 = [] := by
  unfold W25.pageProgram
  rw [if_pos h]
  exact ⟨rfl, rfl⟩

/-- Witness for C4: programming series-Q flash at the unaligned address 1
returns not-aligned with an empty bus trace. -/
theorem page_program_not_aligned_witness :
    (W25.pageProgram (P := Unit) ⟨16777216⟩ .Q zeroBus 1 []).1 =
      .error .NotAligned ∧
    (W25.pageProgram (P := Unit) ⟨16777216⟩ .Q zeroBus 1 []).2 = [] :=
  page_program_not_aligned Unit Unit ⟨16777216⟩ .Q zeroBus 1 [] (by decide)

/-- C5: the write-enable handshake issues opcode 0x06 and then reads
status register 1; whenever the write-enable-latch bit is unset in the
byte read back, the handshake — and with it the surrounding Page Program
or Sector Erase operation, run on otherwise valid arguments — returns the
write-enable-failed error, and the trace stops at the two handshake
transactions: the mutating command is never issued on the bus. -/
theorem write_enable_latch_guard (S P : Type) (w : W25) (s : Series)
    (bus : Bus S) (a : Nat) (data : List Nat) (rx : List Nat)
    (hw : bus.write [Command.WriteEnable.opcode] = .ok ())
    (ht : bus.transfer [Command.ReadStatusRegister1.opcode, 0] = .ok rx)
    (hb : (rx.getD 1 0).testBit welBit = false)
    (ha : a % s.PAGE_SIZE = 0) (hd : data.length ≤ s.PAGE_SIZE)
    (hs : a % s.SECTOR_SIZE = 0) (hc : a < w.capacity) :
    (writeEnable bus : Except (Error S P) Unit × List Event).1 =
      .error .WriteEnableFail ∧
    (writeEnable bus : Except (Error S P) Unit × List Event).2 =
      [.busWrite [Command.WriteEnable.opcode],
       .busTransfer [Command.ReadStatusRegister1.opcode, 0]] ∧
    (W25.pageProgram (P := P) w s bus a data).1 = .error .WriteEnableFail ∧
    (W25.pageProgram (P := P) w s bus a data).2 =
      [.busWrite [Command.WriteEnable.opcode],
       .busTransfer [Command.ReadStatusRegister1.opcode, 0]] ∧
    (W25.sectorErase (P := P) w s bus a).1 = .error .WriteEnableFail ∧
    (W25.sectorErase (P := P) w s bus a).2 =
      [.busWrite [Command.WriteEnable.opcode],
       .busTransfer [Command.ReadStatusRegister1.opcode, 0]] := by
  have hwe : (writeEnable bus : Except (Error S P) Unit × List Event) =
      (.error .WriteEnableFail,
       [.busWrite [Command.WriteEnable.opcode],
        .busTransfer [Command.ReadStatusRegister1.opcode, 0]]) := by
    unfold writeEnable
    rw [hw, ht]
    simp at hb
    simp [hb]
  refine ⟨by rw [hwe], by rw [hwe], ?_, ?_, ?_, ?_⟩ <;>
    · first
      | (unfold W25.pageProgram
         rw [if_neg (by omega), if_neg (by omega), hwe])
      | (unfold W25.sectorErase
         rw [if_neg (by omega), if_neg (by omega), hwe])

/-- Witness for C5: on a bus whose status register reads back zero (latch
bit unset), programming an aligned, in-bounds page returns
write-enable-failed with a trace of exactly the write-enable command and
the status read. -/
theorem write_enable_latch_guard_witness :
    (W25.pageProgram (P := Unit) ⟨16777216⟩ .Q zeroBus 0 []).1 =
      .error .WriteEnableFail ∧
    (W25.pageProgram (P := Unit) ⟨16777216⟩ .Q zeroBus 0 []).2 =
      [.busWrite [Command.WriteEnable.opcode],
       .busTransfer [Command.ReadStatusRegister1.opcode, 0]] :=
  ⟨(write_enable_latch_guard Unit Unit ⟨16777216⟩ .Q zeroBus 0 [] [0, 0]
      rfl rfl (by decide) (by decide) (by decide) (by decide)
      (by decide)).2.2.1,
   (write_enable_latch_guard Unit Unit ⟨16777216⟩ .Q zeroBus 0 [] [0, 0]
      rfl rfl (by decide) (by decide) (by decide) (by decide)
      (by decide)).2.2.2.1⟩

/-- C7: the reset capability marker is carried by series Q and not by
series X — so in the embedding a reset call demands a proof `supportsReset
s = true` and cannot even be formed for X, mirroring the Rust compile-time
trait bound — and for any capable series the software-reset operation
issues the EnableReset transaction first and, when both writes succeed,
exactly the two transactions EnableReset (0x66) then Reset (0x99), each a
separate bus write. -/
theorem reset_two_transactions (S P : Type) (bus : Bus S) :
    Series.supportsReset .Q = true ∧
    Series.supportsReset .X = false ∧
    ∀ (s : Series) (h : s.supportsReset = true),
      ((W25.reset (P := P) s h bus).2 =
          [.busWrite [Command.EnableReset.opcode]] ∨
       (W25.reset (P := P) s h bus).2 =
          [.busWrite [Command.EnableReset.opcode],
           .busWrite [Command.Reset.opcode]]) ∧
      (∀ u v, bus.write [Command.EnableReset.opcode] = .ok u →
        bus.write [Command.Reset.opcode] = .ok v →
        (W25.reset (P := P) s h bus).1 = .ok () ∧
        (W25.reset (P := P) s h bus).2 =
          [.busWrite [Command.EnableReset.opcode],
           .busWrite [Command.Reset.opcode]]) := by
  refine ⟨rfl, rfl, ?_⟩
  intro s h
  unfold W25.reset
  rcases h1 : bus.write [Command.EnableReset.opcode] with e | u <;>
    rcases h2 : bus.write [Command.Reset.opcode] with f | v <;>
    simp [h1, h2]

/-- Witness for C7: on an always-succeeding bus, resetting a series-Q
chip succeeds and the trace is exactly the EnableReset write followed by
the Reset write. -/
theorem reset_two_transactions_witness :
    (W25.reset (P := Unit) .Q rfl zeroBus).1 = .ok () ∧
    (W25.reset (P := Unit) .Q rfl zeroBus).2 =
      [.busWrite [Command.EnableReset.opcode],
       .busWrite [Command.Reset.opcode]] :=
  ((reset_two_transactions Unit Unit zeroBus).2.2 .Q rfl).2 () () rfl rfl

end W25Spec
